import Mathlib

/-!
Verification development for the intent-resolution pipeline of the
Personalized Healthcare Chatbot repository.

The Python sources are shallowly embedded as Lean definitions:

* `check_similarity`, `classify_domain`, `fallback_intent_classification`
  embed the corresponding methods of `IntentClassifier`
  (src/intent_classifier.py).  The external sentence encoder is modelled
  by passing in the cosine-similarity outcome per intent
  (`Option` = `none` when the encoder raises).
* `confidence_gap_directive` embeds the confidence-gap banding of
  `LLMHandler._build_prompt` (src/llm_handler.py, lines 118-140).
* `calculate_anc_reminder` embeds `LLMHandler._calculate_anc_reminder`
  (src/llm_handler.py, lines 298-498).  Dates are modelled as integer
  day numbers; `datetime.strptime` is an external library call modelled
  by a `parse_date : String → Option ℤ` parameter (`none` = ValueError).
  The human-readable message returned by the Python code is abstracted
  into the `AncReminder` inductive: one constructor per return site,
  carrying exactly the values interpolated into that message.
* `generate_rule_based_recommendations` embeds
  `RecommendationEngine._generate_rule_based_recommendations`
  (src/recommendation_engine.py, lines 97-172).
* `process_user_message` embeds the control flow of
  `process_user_message` (src/chatbot_app.py, lines 549-600),
  instrumented with call counters for the downstream components.

Machine floats of the source are modelled as exact rationals `ℚ`;
Python `int(x)` (truncation toward zero) is `pyInt`.
-/

/-- Python `int(x)` on a real number: truncation toward zero. -/
def pyInt (q : ℚ) : ℤ := if 0 ≤ q then ⌊q⌋ else -⌊-q⌋

/-- Python `str.lower()` (the strings involved are ASCII). -/
def lowerStr (s : String) : String := ⟨s.data.map Char.toLower⟩

/-- Python `needle in hay` on strings: substring containment. -/
def containsSub (hay needle : String) : Bool := decide (needle.data <:+: hay.data)

/-- `np.max` over a list of similarity scores (`0` only for the empty
list, which the callers guard against: `np.max([])` raises). -/
def maxList : List ℚ → ℚ
  | [] => 0
  | x :: xs => xs.foldl max x

/-- `np.mean` over a list of similarity scores. -/
def meanList (l : List ℚ) : ℚ := l.sum / (l.length : ℚ)

theorem le_foldl_max (xs : List ℚ) (a : ℚ) : a ≤ xs.foldl max a := by
  induction xs generalizing a with
  | nil => exact le_refl a
  | cons x xs ih => exact le_trans (le_max_left a x) (ih (max a x))

theorem mem_le_foldl_max (xs : List ℚ) (a x : ℚ) (hx : x ∈ xs) :
    x ≤ xs.foldl max a := by
  induction xs generalizing a with
  | nil => cases hx
  | cons y ys ih =>
    rcases List.mem_cons.mp hx with h | h
    · subst h
      exact le_trans (le_max_right a x) (le_foldl_max ys (max a x))
    · exact ih (max a y) h

theorem foldl_max_mem (xs : List ℚ) (a : ℚ) :
    xs.foldl max a = a ∨ xs.foldl max a ∈ xs := by
  induction xs generalizing a with
  | nil => exact Or.inl rfl
  | cons x xs ih =>
    rcases ih (max a x) with h | h
    · rcases max_choice a x with hm | hm
      · exact Or.inl (by rw [List.foldl_cons, h, hm])
      · exact Or.inr (by rw [List.foldl_cons, h, hm]; exact List.mem_cons_self x xs)
    · exact Or.inr (List.mem_cons_of_mem x h)

theorem le_maxList {l : List ℚ} {x : ℚ} (hx : x ∈ l) : x ≤ maxList l := by
  cases l with
  | nil => cases hx
  | cons y ys =>
    rcases List.mem_cons.mp hx with h | h
    · subst h; exact le_foldl_max ys x
    · exact mem_le_foldl_max ys y x h

theorem maxList_mem {l : List ℚ} (h : l ≠ []) : maxList l ∈ l := by
  cases l with
  | nil => exact absurd rfl h
  | cons y ys =>
    rcases foldl_max_mem ys y with h' | h'
    · rw [maxList, h']; exact List.mem_cons_self y ys
    · exact List.mem_cons_of_mem y h'

/-- One entry of the `all_similarities` list built by
`IntentClassifier.check_similarity`: the dict
`{'intent': ..., 'max_similarity': ..., 'mean_similarity': ...}`. -/
structure IntentMatch where
  intent : String
  max_similarity : ℚ
  mean_similarity : ℚ
deriving DecidableEq

/-- A Python dict value (string or number) as stored in an
`IntentMatch` entry. -/
inductive PyVal where
  | str (s : String)
  | rat (q : ℚ)
deriving DecidableEq

/-- Subscript access `entry[key]` on an `IntentMatch` dict: `none` models
a `KeyError`.  The three keys below are exactly the keys the source
stores in each `all_similarities` entry. -/
def matchGet (m : IntentMatch) (key : String) : Option PyVal :=
  if key = "intent" then some (.str m.intent)
  else if key = "max_similarity" then some (.rat m.max_similarity)
  else if key = "mean_similarity" then some (.rat m.mean_similarity)
  else none

/-- The sort order used by `all_similarities.sort(key=lambda x:
x['max_similarity'], reverse=True)`: descending by `max_similarity`.
With this non-strict order, insertion sort is stable exactly like
Python's sort. -/
def simOrder (a b : IntentMatch) : Prop := b.max_similarity ≤ a.max_similarity

instance : DecidableRel simOrder :=
  fun a b => inferInstanceAs (Decidable (b.max_similarity ≤ a.max_similarity))

instance : IsTotal IntentMatch simOrder :=
  ⟨fun a b => le_total b.max_similarity a.max_similarity⟩

instance : IsTrans IntentMatch simOrder :=
  ⟨fun _ _ _ hab hbc => le_trans hbc hab⟩

/-- Return value of `IntentClassifier.check_similarity`. -/
structure SimilarityCheckResult where
  is_valid : Bool
  max_similarity : ℚ
  best_matches : List IntentMatch
deriving DecidableEq

/-- The per-intent similarity computation of `check_similarity`:
for each `(intent, similarity scores against that intent's examples)`
pair, record max and mean. -/
def allSimilarities (sims : List (String × List ℚ)) : List IntentMatch :=
  sims.map (fun p => ⟨p.1, maxList p.2, meanList p.2⟩)

/-- `IntentClassifier.check_similarity` (src/intent_classifier.py,
lines 157-205).  `enc = none` models the sentence encoder raising (the
`except` branch); `enc = some sims` gives, per intent of
`training_embeddings_by_intent` in iteration order, the cosine
similarities of the user input against that intent's example
embeddings.  An empty similarity list would make `np.max` raise, which
the same `except` branch turns into the failure result. -/
def check_similarity (threshold : ℚ) (enc : Option (List (String × List ℚ))) :
    SimilarityCheckResult :=
  match enc with
  | none => ⟨false, 0, []⟩
  | some sims =>
    if sims.any (fun p => p.2.isEmpty) then ⟨false, 0, []⟩
    else
      let sorted := List.insertionSort simOrder (allSimilarities sims)
      let best_matches := sorted.take 5
      let max_similarity := match best_matches with
        | [] => 0
        | b :: _ => b.max_similarity
      ⟨decide (max_similarity ≥ threshold), max_similarity, best_matches⟩

/-- Result dict of `IntentClassifier._fallback_intent_classification`. -/
structure IntentPrediction where
  intent : String
  confidence : ℚ
  predicted_class : ℕ
deriving DecidableEq

/-- The per-domain default intent of
`IntentClassifier._fallback_intent_classification`. -/
def default_intent (domain : String) : String :=
  if domain = "KEHAMILAN" then "panduan_persiapan_persalinan" else "cek_data_customer"

/-- `IntentClassifier._fallback_intent_classification`
(src/intent_classifier.py, lines 398-444).  The whole body runs inside
`try/except`: the subscript `best_match['similarity']` is modelled by
`matchGet best_match "similarity"`, and a `KeyError` (`none`) falls
into the `except` branch, which returns the per-domain default intent
with confidence `0.1`.  An empty `best_matches` list takes the clean
no-match branch with confidence `0.5`. -/
def fallback_intent_classification (threshold : ℚ)
    (enc : Option (List (String × List ℚ))) (domain : String) : IntentPrediction :=
  let similarity_result := check_similarity threshold enc
  match similarity_result.best_matches with
  | best_match :: _ =>
    match matchGet best_match "similarity" with
    | some (.rat confidence) => ⟨best_match.intent, confidence, 0⟩
    | _ => ⟨default_intent domain, 0.1, 0⟩
  | [] => ⟨default_intent domain, 0.5, 0⟩

/-- The fixed keyword list of the `classify_domain` fallback. -/
def pregnancy_keywords : List String :=
  ["hamil", "kehamilan", "kandungan", "anc", "persalinan",
   "melahirkan", "trimester", "kontraksi", "janin", "bayi"]

/-- `torch.argmax` over the two softmax outputs `[p0, p1]` (first
maximal index). -/
def argmax2 (p0 p1 : ℚ) : ℕ := if p1 > p0 then 1 else 0

/-- The three ways `IntentClassifier.classify_domain` can run: with the
BERT domain model available (modelled by its 2-class softmax outputs),
with the model unavailable (keyword fallback on the input text), or
with an unexpected internal exception. -/
inductive DomainInput where
  | model_output (p0 p1 : ℚ)
  | no_model (text : String)
  | internal_error

/-- `IntentClassifier.classify_domain` (src/intent_classifier.py,
lines 207-254).  Class index 1 maps to `'UMUM'`, anything else (class
index 0) to `'KEHAMILAN'`; the keyword fallback returns `'KEHAMILAN'`
on the first keyword found in the lowercased input; any internal
exception yields `'UMUM'`. -/
def classify_domain : DomainInput → String
  | .model_output p0 p1 => if argmax2 p0 p1 = 1 then "UMUM" else "KEHAMILAN"
  | .no_model text =>
    if pregnancy_keywords.any (fun k => containsSub (lowerStr text) k) then
      "KEHAMILAN"
    else "UMUM"
  | .internal_error => "UMUM"

/-- One entry of the `top_predictions` list handed to
`LLMHandler._build_prompt`. -/
structure Prediction where
  intent : String
  confidence : ℚ
deriving DecidableEq

/-- The confidence-gap directive chosen by `LLMHandler._build_prompt`. -/
inductive GapDirective where
  | trust_primary
  | consider_alternate
  | weigh_both
  | single_prediction
deriving DecidableEq

/-- The confidence-gap banding of `LLMHandler._build_prompt`
(src/llm_handler.py, lines 118-140): with at least two predictions,
`confidence_gap = predictions[0] - predictions[1]`; `gap > 0.5` picks
the trust-primary directive, `gap > 0.2` the consider-alternate one,
anything else the ambiguous weigh-both one.  With fewer than two
predictions the generic directive is used. -/
def confidence_gap_directive (top_predictions : List Prediction) : GapDirective :=
  match top_predictions with
  | p0 :: p1 :: _ =>
    let confidence_gap := p0.confidence - p1.confidence
    if confidence_gap > 0.5 then .trust_primary
    else if confidence_gap > 0.2 then .consider_alternate
    else .weigh_both
  | _ => .single_prediction

/-- Result dict of the intent classifiers as consumed by
`process_user_message`. -/
structure IntentResult where
  intent : String
  confidence : ℚ
  predictions : List Prediction

/-- The fixed out-of-scope reply of `process_user_message`. -/
def out_of_scope_message : String :=
  "Maaf, itu di luar fitur saya. Saya CarePal dapat membantu dengan pertanyaan seputar kesehatan kehamilan dan umum. Silakan coba pertanyaan lain yang berkaitan dengan kesehatan Anda."

/-- Observable outcome of one `process_user_message` turn: the reply
plus how often each downstream component was invoked. -/
structure PipelineTrace (Ctx : Type) where
  response : String
  domain_calls : ℕ
  pregnancy_intent_calls : ℕ
  general_intent_calls : ℕ
  context_fetches : ℕ

/-- `process_user_message` (src/chatbot_app.py, lines 549-600),
instrumented with call counters.  The downstream components (domain
classifier, the two intent classifiers, `get_context_for_intent` and
the reply generator) are passed as functions; the similarity gate is
the embedded `check_similarity`.  Step 1 checks the gate; an invalid
result short-circuits to the fixed out-of-scope reply without running
any later step.  Otherwise the domain is classified, the matching
intent classifier runs, contexts are fetched for the primary intent
and for the top-2 predictions (when more than one), and the reply is
generated. -/
def process_user_message {Ctx : Type} (threshold : ℚ)
    (enc : Option (List (String × List ℚ)))
    (user_input customer_id : String)
    (classify_domain_f : String → String)
    (classify_pregnancy_intent_f classify_general_intent_f : String → IntentResult)
    (get_context_for_intent : String → String → Ctx)
    (generate_response_f : String → String → ℚ → Ctx → List (String × Ctx) → String) :
    PipelineTrace Ctx :=
  let similarity_result := check_similarity threshold enc
  if similarity_result.is_valid = false then
    { response := out_of_scope_message
      domain_calls := 0
      pregnancy_intent_calls := 0
      general_intent_calls := 0
      context_fetches := 0 }
  else
    let domain := classify_domain_f user_input
    let intent_result :=
      if domain = "KEHAMILAN" then classify_pregnancy_intent_f user_input
      else classify_general_intent_f user_input
    let primary_context := get_context_for_intent intent_result.intent customer_id
    let prediction_contexts :=
      if intent_result.predictions.length > 1 then
        (intent_result.predictions.take 2).map
          (fun p => (p.intent, get_context_for_intent p.intent customer_id))
      else []
    let response := generate_response_f user_input intent_result.intent
      intent_result.confidence primary_context prediction_contexts
    { response := response
      domain_calls := 1
      pregnancy_intent_calls := if domain = "KEHAMILAN" then 1 else 0
      general_intent_calls := if domain = "KEHAMILAN" then 0 else 1
      context_fetches := 1 + prediction_contexts.length }

/-- The fields of a `pregnancy_data` row that
`_calculate_anc_reminder` reads (missing values are the Python
defaults: empty string). -/
structure Pregnancy where
  id_kehamilan : String
  status_kehamilan : String
  tanggal_hpht : String
deriving DecidableEq

/-- The fields of an `anc_visits` row that `_calculate_anc_reminder`
reads.  A missing `usia_kehamilan` defaults to `0`, a missing
`tanggal_kunjungan` to the empty string, exactly as in the source's
`.get(..., 0)` / `.get(..., '')`. -/
structure AncVisit where
  tanggal_kunjungan : String
  usia_kehamilan : ℤ
deriving DecidableEq

/-- The fields of a `deliveries` row that `_calculate_anc_reminder`
reads. -/
structure Delivery where
  id_kehamilan : String
  tanggal_lahir : String
deriving DecidableEq

/-- Outcome of `LLMHandler._calculate_anc_reminder`: one constructor
per `return` site of the source, carrying the values interpolated into
the returned message. -/
inductive AncReminder where
  /-- no pregnancy record: register first -/
  | no_pregnancy
  /-- matching delivery found: pregnancy completed, no more ANC -/
  | delivered (pregnancy_id delivery_date : String)
  /-- pregnancy status outside the active set -/
  | inactive_status (status : String)
  /-- no visits, HPHT known, ≥ 8 weeks pregnant: visit tomorrow -/
  | first_visit_immediate (weeks_pregnant : ℤ) (next_visit_date : ℤ)
  /-- no visits, HPHT known, < 8 weeks: visit timed to week 8 -/
  | first_visit_week8 (weeks_pregnant : ℤ) (next_visit_date : ℤ)
  /-- no visits and no (parseable) HPHT: generic cadence guideline -/
  | first_visit_generic
  /-- latest visit lacks date or gestational week -/
  | incomplete_visit_data
  /-- latest visit date fails to parse -/
  | invalid_date_format
  /-- the computed plan for the next visit -/
  | schedule (current_week target_week : ℤ) (next_visit_date : ℤ)
      (overdue : Bool) (interval_name : String)
deriving DecidableEq

/-- The statuses `_calculate_anc_reminder` treats as an active
pregnancy. -/
def active_statuses : List String := ["berjalan", "aktif", "ongoing"]

/-- `LLMHandler._calculate_anc_reminder` (src/llm_handler.py, lines
298-498).  `parse_date` models `datetime.strptime(s, '%Y-%m-%d')`
(`none` = `ValueError`), `today` models `datetime.now()`; dates are
integer day numbers, so Python's `timedelta` arithmetic is integer
arithmetic.  In the scheduling branch the Python source assigns
`target_weeks` and `interval_name` side by side in every branch of one
`if/elif/else` tree; here the two assignments are two `let`s over the
same tree.  `days_to_add = int(weeks_to_add * 7)` is pure integer
arithmetic in the source (both operands are ints), hence
`(target - current) * 7` below. -/
def calculate_anc_reminder (parse_date : String → Option ℤ) (today : ℤ)
    (pregnancy_data : List Pregnancy) (anc_visits : List AncVisit)
    (deliveries : List Delivery) : AncReminder :=
  match pregnancy_data with
  | [] => .no_pregnancy
  | current_pregnancy :: _ =>
    let pregnancy_id := current_pregnancy.id_kehamilan
    let pregnancy_status := lowerStr current_pregnancy.status_kehamilan
    match deliveries.find? (fun d => d.id_kehamilan == pregnancy_id) with
    | some delivery => .delivered pregnancy_id delivery.tanggal_lahir
    | none =>
      if pregnancy_status ∉ active_statuses then
        .inactive_status pregnancy_status
      else
        match anc_visits with
        | [] =>
          let hpht_str := current_pregnancy.tanggal_hpht
          if hpht_str = "" then .first_visit_generic
          else
            match parse_date hpht_str with
            | none => .first_visit_generic
            | some hpht_date =>
              let days_pregnant := today - hpht_date
              let weeks_pregnant := pyInt ((days_pregnant : ℚ) / 7)
              if weeks_pregnant ≥ 8 then
                .first_visit_immediate weeks_pregnant (today + 1)
              else
                .first_visit_week8 weeks_pregnant (today + (8 * 7 - days_pregnant))
        | latest_visit :: _ =>
          let last_visit_date_str := latest_visit.tanggal_kunjungan
          let last_pregnancy_weeks := latest_visit.usia_kehamilan
          if last_visit_date_str = "" ∨ last_pregnancy_weeks = 0 then
            .incomplete_visit_data
          else
            match parse_date last_visit_date_str with
            | none => .invalid_date_format
            | some last_visit_date =>
              let days_elapsed := today - last_visit_date
              let current_pregnancy_weeks :=
                pyInt ((last_pregnancy_weeks : ℚ) + (days_elapsed : ℚ) / 7)
              let target_weeks :=
                if current_pregnancy_weeks ≤ 12 then 13
                else if current_pregnancy_weeks ≤ 28 then
                  if current_pregnancy_weeks - last_pregnancy_weeks ≥ 4 then
                    current_pregnancy_weeks
                  else last_pregnancy_weeks + 4
                else if current_pregnancy_weeks ≤ 36 then
                  if current_pregnancy_weeks - last_pregnancy_weeks ≥ 2 then
                    current_pregnancy_weeks
                  else last_pregnancy_weeks + 2
                else
                  if current_pregnancy_weeks - last_pregnancy_weeks ≥ 1 then
                    current_pregnancy_weeks
                  else last_pregnancy_weeks + 1
              let interval_name :=
                if current_pregnancy_weeks ≤ 12 then "memasuki trimester 2"
                else if current_pregnancy_weeks ≤ 28 then
                  if current_pregnancy_weeks - last_pregnancy_weeks ≥ 4 then
                    "kontrol trimester 2 (terlambat)"
                  else "kontrol trimester 2"
                else if current_pregnancy_weeks ≤ 36 then
                  if current_pregnancy_weeks - last_pregnancy_weeks ≥ 2 then
                    "kontrol trimester 3 (terlambat)"
                  else "kontrol trimester 3"
                else
                  if current_pregnancy_weeks - last_pregnancy_weeks ≥ 1 then
                    "kontrol menjelang persalinan (terlambat)"
                  else "kontrol menjelang persalinan"
              if target_weeks ≤ current_pregnancy_weeks then
                .schedule current_pregnancy_weeks target_weeks (today + 1)
                  true interval_name
              else
                .schedule current_pregnancy_weeks target_weeks
                  (today + (target_weeks - current_pregnancy_weeks) * 7)
                  false interval_name

/-- Ambient process state visible to `_calculate_anc_reminder`: the
clock it reads via `datetime.now()` plus any other mutable state of the
process (which the function does not touch). -/
structure ProcessEnv where
  now : ℤ
  ambient_state : ℕ

/-- `_calculate_anc_reminder` as run inside a process environment:
`datetime.now()` yields `env.now`; nothing else of the environment is
read or written. -/
def calculate_anc_reminder_in_env (env : ProcessEnv)
    (parse_date : String → Option ℤ) (pregnancy_data : List Pregnancy)
    (anc_visits : List AncVisit) (deliveries : List Delivery) : AncReminder :=
  calculate_anc_reminder parse_date env.now pregnancy_data anc_visits deliveries

/-- A row of `recent_lab_results` in the user-history summary:
`_generate_rule_based_recommendations` only reads
`.get('test_type', 'lab')`. -/
structure LabResult where
  test_type : Option String
deriving DecidableEq

/-- The parts of `get_user_history_summary`'s result that
`_generate_rule_based_recommendations` reads (only truthiness and, for
lab results, the first row's test type matter; list elements other
than that are opaque strings). -/
structure UserHistory where
  recent_lab_results : List LabResult
  recent_diagnoses : List String
  recent_visits : List String
deriving DecidableEq

/-- A row of the `kehamilan` table as read by the recommendation
rules. -/
structure KehamilanRow where
  customer_id : String
  id_kehamilan : String
deriving DecidableEq

/-- A row of the `anc_kunjungan` table as read by the recommendation
rules. -/
structure AncKunjunganRow where
  id_kehamilan : String
deriving DecidableEq

/-- `RecommendationEngine._get_default_recommendations`
(src/recommendation_engine.py, lines 174-181). -/
def get_default_recommendations : List String :=
  ["Tampilkan ringkasan data kesehatan saya",
   "Apakah ada catatan kunjungan terakhir?",
   "Siapa dokter yang biasa menangani saya?",
   "Golongan darah saya apa?"]

/-- One iteration of the padding loop: append the first default
recommendation not already present (`for rec in default_recs: if rec
not in recommendations: recommendations.append(rec); break`). -/
def add_first_default (recs : List String) : List String → List String
  | [] => recs
  | d :: ds => if recs.contains d then add_first_default recs ds else recs ++ [d]

/-- The `while len(recommendations) < 4` padding loop, fuelled: four
iterations are enough whenever the Python loop terminates, and the
embedded callers always reach it with four items already. -/
def pad_to_four : ℕ → List String → List String
  | 0, recs => recs
  | fuel + 1, recs =>
    if recs.length < 4 then
      pad_to_four fuel (add_first_default recs get_default_recommendations)
    else recs

/-- The ANC-visit availability check of
`_generate_rule_based_recommendations`: both tables present, the
customer has pregnancy rows, and some `anc_kunjungan` row joins one of
the customer's pregnancy ids. -/
def rule_based_has_anc_visits (customer_id : String)
    (has_kehamilan_table has_anc_table : Bool)
    (kehamilan_rows : List KehamilanRow) (anc_rows : List AncKunjunganRow) : Bool :=
  if has_kehamilan_table && has_anc_table then
    let pregnancy_data := kehamilan_rows.filter (fun r => r.customer_id == customer_id)
    if !pregnancy_data.isEmpty then
      let pregnancy_ids := pregnancy_data.map (fun r => r.id_kehamilan)
      let anc_visits := anc_rows.filter (fun a => pregnancy_ids.contains a.id_kehamilan)
      !anc_visits.isEmpty
    else false
  else false

/-- `RecommendationEngine._generate_rule_based_recommendations`
(src/recommendation_engine.py, lines 97-172).  `has_kehamilan_table` /
`has_anc_table` model `'kehamilan' in database_handler.tables` etc.;
the two tables are passed as row lists.  Each of the four category
blocks appends exactly one recommendation; the padding loop and
`[:4]` truncation close the function. -/
def generate_rule_based_recommendations (user_history : UserHistory)
    (customer_id : String) (has_kehamilan_table has_anc_table : Bool)
    (kehamilan_rows : List KehamilanRow) (anc_rows : List AncKunjunganRow) :
    List String :=
  let rec1 :=
    match user_history.recent_lab_results with
    | latest_lab :: _ =>
      "Tampilkan tren hasil " ++ latest_lab.test_type.getD "lab" ++
        " dari kunjungan sebelumnya"
    | [] => "Apakah ada catatan hasil lab dalam riwayat saya?"
  let rec2 :=
    if !user_history.recent_diagnoses.isEmpty then
      "Tampilkan catatan diagnosis dari kunjungan-kunjungan sebelumnya"
    else "Apakah ada riwayat diagnosis yang tercatat untuk saya?"
  let has_anc_visits :=
    rule_based_has_anc_visits customer_id has_kehamilan_table has_anc_table
      kehamilan_rows anc_rows
  let rec3 :=
    if has_anc_visits then "Tampilkan riwayat kunjungan ANC yang sudah dilakukan"
    else if !user_history.recent_visits.isEmpty then
      "Apakah ada catatan kunjungan kesehatan sebelumnya?"
    else "Siapa dokter yang tersedia untuk konsultasi?"
  let rec4 :=
    if !user_history.recent_visits.isEmpty then
      "Tampilkan riwayat obat yang pernah diresepkan"
    else if has_kehamilan_table then
      if !(kehamilan_rows.filter (fun r => r.customer_id == customer_id)).isEmpty then
        "Apakah ada catatan suplemen kehamilan yang pernah dikonsumsi?"
      else "Golongan darah saya apa?"
    else "Siapa dokter yang biasa menangani saya?"
  (pad_to_four 4 [rec1, rec2, rec3, rec4]).take 4

/-- C1: the similarity-fallback path of intent classification.  The
claim (and spec) say a non-empty best-matches list yields the gate's
best-match intent with confidence equal to its similarity score.  The
code cannot do this: `check_similarity` stores the score under the key
`'max_similarity'`, but `_fallback_intent_classification` reads
`best_match['similarity']`, a `KeyError` that lands in the `except`
branch, so every non-empty-match input yields the per-domain default
intent with confidence `0.1`.  Evaluated here at a gate outcome with
one match (`anc_tracker`, similarity `0.9`, domain `'UMUM'`). -/
theorem fallback_intent_keyerror_eval :
    (check_similarity 0.6 (some [("anc_tracker", [0.9])])).best_matches =
      [⟨"anc_tracker", 0.9, 0.9⟩] ∧
    matchGet ⟨"anc_tracker", 0.9, 0.9⟩ "similarity" = none ∧
    fallback_intent_classification 0.6 (some [("anc_tracker", [0.9])]) "UMUM" =
      ⟨"cek_data_customer", 0.1, 0⟩ ∧
    fallback_intent_classification 0.6 (some [("anc_tracker", [0.9])]) "UMUM" ≠
      ⟨"anc_tracker", 0.9, 0⟩ := by
  have hs1 : ("similarity" : String) ≠ "intent" := by decide
  have hs2 : ("similarity" : String) ≠ "max_similarity" := by decide
  have hs3 : ("similarity" : String) ≠ "mean_similarity" := by decide
  have hs4 : ("UMUM" : String) ≠ "KEHAMILAN" := by decide
  have hs5 : ("cek_data_customer" : String) ≠ "anc_tracker" := by decide
  norm_num [check_similarity, allSimilarities, maxList, meanList,
    fallback_intent_classification, matchGet, default_intent,
    List.insertionSort, List.orderedInsert, hs1, hs2, hs3, hs4, hs5]

/-- C4 counterexample: the claim places a confidence gap of exactly
`0.2` in the middle (primary-but-consider-alternate) band, but the
source condition is the strict `confidence_gap > 0.2`, so a gap of
exactly `0.2` (confidences `0.6` and `0.4`) takes the ambiguous
weigh-both directive instead. -/
theorem gap_directive_boundary_counterexample :
    (⟨"hasil_lab_ringkasan", (0.6 : ℚ)⟩ : Prediction).confidence -
      (⟨"hasil_lab_detail", (0.4 : ℚ)⟩ : Prediction).confidence = 0.2 ∧
    confidence_gap_directive
      [⟨"hasil_lab_ringkasan", 0.6⟩, ⟨"hasil_lab_detail", 0.4⟩] = .weigh_both ∧
    confidence_gap_directive
      [⟨"hasil_lab_ringkasan", 0.6⟩, ⟨"hasil_lab_detail", 0.4⟩] ≠
      .consider_alternate := by
  have heval : confidence_gap_directive
      [⟨"hasil_lab_ringkasan", (0.6 : ℚ)⟩, ⟨"hasil_lab_detail", 0.4⟩] =
      .weigh_both := by
    norm_num [confidence_gap_directive]
  refine ⟨by norm_num, heval, ?_⟩
  rw [heval]
  decide

/-- C4 (amended): for a top-2 prediction list with gap
`predictions[0].confidence - predictions[1].confidence`, a gap above
`0.5` selects the trust-primary-only directive, a gap in the half-open
band `(0.2, 0.5]` the primary-but-consider-alternate directive, and a
gap of at most `0.2` (including exactly `0.2`) the ambiguous
weigh-both directive. -/
theorem gap_directive_bands (p0 p1 : Prediction) (rest : List Prediction) :
    (p0.confidence - p1.confidence > 0.5 →
      confidence_gap_directive (p0 :: p1 :: rest) = .trust_primary) ∧
    (0.2 < p0.confidence - p1.confidence ∧ p0.confidence - p1.confidence ≤ 0.5 →
      confidence_gap_directive (p0 :: p1 :: rest) = .consider_alternate) ∧
    (p0.confidence - p1.confidence ≤ 0.2 →
      confidence_gap_directive (p0 :: p1 :: rest) = .weigh_both) := by
  refine ⟨fun h => ?_, fun h => ?_, fun h => ?_⟩
  · simp only [confidence_gap_directive]
    rw [if_pos h]
  · simp only [confidence_gap_directive]
    rw [if_neg (not_lt.mpr h.2), if_pos h.1]
  · simp only [confidence_gap_directive]
    rw [if_neg (not_lt.mpr (le_trans h (by norm_num))), if_neg (not_lt.mpr h)]

/-- Witness for `gap_directive_bands` at a concrete top-2 list with
gap `0.8`. -/
theorem gap_directive_bands_witness :
    confidence_gap_directive
      [⟨"jadwal_dokter", (0.9 : ℚ)⟩, ⟨"detail_dokter", 0.1⟩] = .trust_primary :=
  (gap_directive_bands ⟨"jadwal_dokter", 0.9⟩ ⟨"detail_dokter", 0.1⟩ []).1
    (by norm_num)

/-- C7: `classify_domain` returns `'UMUM'` exactly when the argmax of
the 2-class softmax is class index 1 and `'KEHAMILAN'` exactly when it
is class index 0; with the model unavailable it returns `'KEHAMILAN'`
iff the lowercased input contains a keyword of the fixed pregnancy
list, `'UMUM'` otherwise; and an internal exception yields `'UMUM'`. -/
theorem classify_domain_spec (p0 p1 : ℚ) (t : String) :
    (classify_domain (.model_output p0 p1) = "UMUM" ↔ argmax2 p0 p1 = 1) ∧
    (classify_domain (.model_output p0 p1) = "KEHAMILAN" ↔ argmax2 p0 p1 = 0) ∧
    (classify_domain (.no_model t) = "KEHAMILAN" ↔
      ∃ k ∈ pregnancy_keywords, k.data <:+: (lowerStr t).data) ∧
    (classify_domain (.no_model t) = "UMUM" ↔
      ¬ ∃ k ∈ pregnancy_keywords, k.data <:+: (lowerStr t).data) ∧
    classify_domain .internal_error = "UMUM" := by
  have hax : argmax2 p0 p1 = 1 ∨ argmax2 p0 p1 = 0 := by
    unfold argmax2; split <;> simp
  refine ⟨?_, ?_, ?_, ?_, rfl⟩
  · by_cases h : argmax2 p0 p1 = 1 <;> simp [classify_domain, h]
  · by_cases h : argmax2 p0 p1 = 1
    · simp [classify_domain, h]
    · simp [classify_domain, h]
      tauto
  · by_cases h : pregnancy_keywords.any (fun k => containsSub (lowerStr t) k) <;>
      simp [classify_domain, h, containsSub]
  · by_cases h : pregnancy_keywords.any (fun k => containsSub (lowerStr t) k) <;>
      simp [classify_domain, h, containsSub]

/-- Witness for `classify_domain_spec`: softmax `(0.3, 0.7)` (argmax 1)
yields `'UMUM'`, and the keyword fallback on "saya sedang hamil" yields
`'KEHAMILAN'`. -/
theorem classify_domain_spec_witness :
    classify_domain (.model_output 0.3 0.7) = "UMUM" ∧
    classify_domain (.no_model "saya sedang hamil") = "KEHAMILAN" :=
  ⟨(classify_domain_spec 0.3 0.7 "x").1.mpr (by norm_num [argmax2]),
   (classify_domain_spec 0 0 "saya sedang hamil").2.2.1.mpr
     ⟨"hamil", by decide, by decide⟩⟩

/-- C8: the ANC reminder calculation is deterministic in
`(pregnancy_data, anc_visits, deliveries, today)`: two runs in process
environments that agree on the clock (whatever the rest of the mutable
process state is) produce the same plan. -/
theorem anc_reminder_deterministic (e1 e2 : ProcessEnv)
    (parse_date : String → Option ℤ) (pregnancy_data : List Pregnancy)
    (anc_visits : List AncVisit) (deliveries : List Delivery)
    (h : e1.now = e2.now) :
    calculate_anc_reminder_in_env e1 parse_date pregnancy_data anc_visits deliveries =
      calculate_anc_reminder_in_env e2 parse_date pregnancy_data anc_visits deliveries := by
  unfold calculate_anc_reminder_in_env
  rw [h]

/-- Witness for `anc_reminder_deterministic`: same clock, different
ambient state. -/
theorem anc_reminder_deterministic_witness :
    calculate_anc_reminder_in_env ⟨100, 0⟩ (fun _ => none) [] [] [] =
      calculate_anc_reminder_in_env ⟨100, 42⟩ (fun _ => none) [] [] [] :=
  anc_reminder_deterministic ⟨100, 0⟩ ⟨100, 42⟩ (fun _ => none) [] [] [] rfl

/-- C3: whenever the most recent pregnancy's `id_kehamilan` matches
some delivery record, the reminder reports completion (the `delivered`
outcome, ending ANC), whatever the pregnancy's status field and
whatever the ANC visit history — the delivery check runs before the
status check and before any visit-based scheduling. -/
theorem anc_delivered_short_circuit (parse_date : String → Option ℤ) (today : ℤ)
    (p : Pregnancy) (ps : List Pregnancy) (anc_visits : List AncVisit)
    (deliveries : List Delivery)
    (h : ∃ d ∈ deliveries, d.id_kehamilan = p.id_kehamilan) :
    ∃ delivery_date,
      calculate_anc_reminder parse_date today (p :: ps) anc_visits deliveries =
        .delivered p.id_kehamilan delivery_date := by
  have hsome : (deliveries.find? (fun d => d.id_kehamilan == p.id_kehamilan)).isSome := by
    rw [List.find?_isSome]
    obtain ⟨d, hd, he⟩ := h
    exact ⟨d, hd, by simpa using he⟩
  obtain ⟨d, hd⟩ := Option.isSome_iff_exists.mp hsome
  refine ⟨d.tanggal_lahir, ?_⟩
  simp only [calculate_anc_reminder, hd]

/-- Witness for `anc_delivered_short_circuit`: a non-active status and
a recorded ANC visit, yet the matching delivery decides the outcome. -/
theorem anc_delivered_short_circuit_witness :
    ∃ delivery_date,
      calculate_anc_reminder (fun _ => none) 0 [⟨"K001", "selesai", ""⟩]
        [⟨"2024-01-01", 20⟩] [⟨"K001", "2024-06-01"⟩] =
        .delivered "K001" delivery_date :=
  anc_delivered_short_circuit (fun _ => none) 0 ⟨"K001", "selesai", ""⟩ []
    [⟨"2024-01-01", 20⟩] [⟨"K001", "2024-06-01"⟩]
    ⟨⟨"K001", "2024-06-01"⟩, by simp, rfl⟩

/-- C10: for an active, undelivered pregnancy with at least one ANC
visit, a latest visit whose recorded gestational week is `0` (the
Python default for a missing value — falsy, indistinguishable from
genuinely recorded `0`) or whose visit-date string is empty yields the
fixed incomplete-visit-data notice, with no target week or next visit
date computed. -/
theorem anc_incomplete_visit_data (parse_date : String → Option ℤ) (today : ℤ)
    (p : Pregnancy) (ps : List Pregnancy) (v : AncVisit) (vs : List AncVisit)
    (deliveries : List Delivery)
    (hdel : ∀ d ∈ deliveries, d.id_kehamilan ≠ p.id_kehamilan)
    (hstatus : lowerStr p.status_kehamilan ∈ active_statuses)
    (h : v.tanggal_kunjungan = "" ∨ v.usia_kehamilan = 0) :
    calculate_anc_reminder parse_date today (p :: ps) (v :: vs) deliveries =
      .incomplete_visit_data := by
  have hfind : deliveries.find? (fun d => d.id_kehamilan == p.id_kehamilan) = none := by
    rw [List.find?_eq_none]
    intro d hd
    simpa using hdel d hd
  simp only [calculate_anc_reminder, hfind]
  rw [if_neg (not_not_intro hstatus), if_pos h]

/-- Witness for `anc_incomplete_visit_data`: active pregnancy, latest
visit has a date but gestational week `0`. -/
theorem anc_incomplete_visit_data_witness :
    calculate_anc_reminder (fun _ => some 0) 100 [⟨"K1", "Aktif", "2024-01-01"⟩]
      [⟨"2024-03-01", 0⟩] [] = .incomplete_visit_data :=
  anc_incomplete_visit_data (fun _ => some 0) 100 ⟨"K1", "Aktif", "2024-01-01"⟩ []
    ⟨"2024-03-01", 0⟩ [] [] (by simp) (by decide) (Or.inr rfl)

/-- C6: whenever the similarity gate reports `is_valid = false`,
`process_user_message` replies with the fixed out-of-scope message and
invokes neither the domain classifier nor either intent classifier,
and fetches no database context. -/
theorem out_of_scope_short_circuit {Ctx : Type} (threshold : ℚ)
    (enc : Option (List (String × List ℚ))) (user_input customer_id : String)
    (classify_domain_f : String → String)
    (classify_pregnancy_intent_f classify_general_intent_f : String → IntentResult)
    (get_context_for_intent : String → String → Ctx)
    (generate_response_f : String → String → ℚ → Ctx → List (String × Ctx) → String)
    (h : (check_similarity threshold enc).is_valid = false) :
    process_user_message threshold enc user_input customer_id classify_domain_f
      classify_pregnancy_intent_f classify_general_intent_f get_context_for_intent
      generate_response_f = ⟨out_of_scope_message, 0, 0, 0, 0⟩ := by
  simp [process_user_message, h]

/-- Witness for `out_of_scope_short_circuit`: the encoder failing
(`enc = none`) makes the gate invalid, and the turn short-circuits. -/
theorem out_of_scope_short_circuit_witness :
    @process_user_message ℕ 0.6 none "berapa harga laptop gaming" "C001"
      (fun _ => "UMUM") (fun _ => ⟨"cek_data_customer", 0, []⟩)
      (fun _ => ⟨"cek_data_customer", 0, []⟩) (fun _ _ => 0)
      (fun _ _ _ _ _ => "jawaban") = ⟨out_of_scope_message, 0, 0, 0, 0⟩ :=
  out_of_scope_short_circuit 0.6 none "berapa harga laptop gaming" "C001"
    (fun _ => "UMUM") (fun _ => ⟨"cek_data_customer", 0, []⟩)
    (fun _ => ⟨"cek_data_customer", 0, []⟩) (fun _ _ => 0)
    (fun _ _ _ _ _ => "jawaban") rfl

/-- C9 counterexample: with every data-availability check false
(no lab results, no diagnoses, no ANC join rows, no treatment visits),
the rule-based fallback does NOT return the fixed generic default set;
it returns the four per-category fallback questions. -/
theorem rule_based_defaults_counterexample :
    generate_rule_based_recommendations ⟨[], [], []⟩ "C001" true true [] [] =
      ["Apakah ada catatan hasil lab dalam riwayat saya?",
       "Apakah ada riwayat diagnosis yang tercatat untuk saya?",
       "Siapa dokter yang tersedia untuk konsultasi?",
       "Golongan darah saya apa?"] ∧
    generate_rule_based_recommendations ⟨[], [], []⟩ "C001" true true [] [] ≠
      get_default_recommendations := by
  refine ⟨by decide, by decide⟩

/-- C9 (amended): the rule-based fallback always returns exactly 4
questions; when every data-availability check is false it emits the
fixed per-category fallback questions (the first three shown below)
rather than the generic default set, which is reserved for padding and
for the exception path. -/
theorem rule_based_always_four (user_history : UserHistory) (customer_id : String)
    (has_kehamilan_table has_anc_table : Bool)
    (kehamilan_rows : List KehamilanRow) (anc_rows : List AncKunjunganRow) :
    (generate_rule_based_recommendations user_history customer_id
      has_kehamilan_table has_anc_table kehamilan_rows anc_rows).length = 4 ∧
    (user_history.recent_lab_results = [] →
      user_history.recent_diagnoses = [] →
      rule_based_has_anc_visits customer_id has_kehamilan_table has_anc_table
        kehamilan_rows anc_rows = false →
      user_history.recent_visits = [] →
      (generate_rule_based_recommendations user_history customer_id
        has_kehamilan_table has_anc_table kehamilan_rows anc_rows).take 3 =
        ["Apakah ada catatan hasil lab dalam riwayat saya?",
         "Apakah ada riwayat diagnosis yang tercatat untuk saya?",
         "Siapa dokter yang tersedia untuk konsultasi?"]) := by
  constructor
  · simp [generate_rule_based_recommendations, pad_to_four]
  · intro h1 h2 h3 h4
    simp [generate_rule_based_recommendations, pad_to_four, h1, h2, h3, h4]

/-- Witness for `rule_based_always_four` at an all-checks-false
customer. -/
theorem rule_based_always_four_witness :
    (generate_rule_based_recommendations ⟨[], [], []⟩ "C002" false false [] []).take 3 =
      ["Apakah ada catatan hasil lab dalam riwayat saya?",
       "Apakah ada riwayat diagnosis yang tercatat untuk saya?",
       "Siapa dokter yang tersedia untuk konsultasi?"] :=
  (rule_based_always_four ⟨[], [], []⟩ "C002" false false [] []).2 rfl rfl rfl rfl

/-- C5: for a gate run whose encoder succeeded (`some sims`, with the
index non-empty and every indexed intent carrying at least one example,
as `_initialize_sentence_transformer` guarantees), `is_valid` holds
exactly when the maximum over all intents of the per-intent maximum
similarity reaches the threshold; `best_matches` holds at most 5
entries, sorted descending by max similarity, drawn from the per-intent
results, and dominating every excluded intent; and an encoder failure
returns exactly `{is_valid := false, max_similarity := 0,
best_matches := []}` (the `except` branch — no exception escapes). -/
theorem check_similarity_spec (threshold : ℚ) (sims : List (String × List ℚ))
    (hne : sims ≠ []) (hall : ∀ p ∈ sims, p.2 ≠ []) :
    ((check_similarity threshold (some sims)).is_valid = true ↔
      maxList (sims.map (fun p => maxList p.2)) ≥ threshold) ∧
    (check_similarity threshold (some sims)).best_matches.length ≤ 5 ∧
    List.Sorted simOrder (check_similarity threshold (some sims)).best_matches ∧
    (∀ m ∈ (check_similarity threshold (some sims)).best_matches,
      m ∈ allSimilarities sims) ∧
    (∀ m ∈ (check_similarity threshold (some sims)).best_matches,
      ∀ a ∈ allSimilarities sims,
        a ∉ (check_similarity threshold (some sims)).best_matches →
          a.max_similarity ≤ m.max_similarity) ∧
    check_similarity threshold none = ⟨false, 0, []⟩ := by
  have hany : sims.any (fun p => p.2.isEmpty) = false := by
    rw [List.any_eq_false]
    intro p hp
    simpa [List.isEmpty_iff] using hall p hp
  have hperm : (List.insertionSort simOrder (allSimilarities sims)).Perm
      (allSimilarities sims) := List.perm_insertionSort simOrder (allSimilarities sims)
  have hsorted : List.Sorted simOrder (List.insertionSort simOrder (allSimilarities sims)) :=
    List.sorted_insertionSort simOrder (allSimilarities sims)
  have hallne : allSimilarities sims ≠ [] := by
    intro h
    exact hne (List.map_eq_nil_iff.mp h)
  have hsortne : List.insertionSort simOrder (allSimilarities sims) ≠ [] := by
    intro h
    apply hallne
    have hl := hperm.length_eq
    rw [h] at hl
    exact List.length_eq_zero.mp hl.symm
  obtain ⟨b, rest, hb⟩ := List.exists_cons_of_ne_nil hsortne
  have hbm : (check_similarity threshold (some sims)).best_matches =
      (List.insertionSort simOrder (allSimilarities sims)).take 5 := by
    simp [check_similarity, hany]
  have hvalid : (check_similarity threshold (some sims)).is_valid =
      decide (b.max_similarity ≥ threshold) := by
    simp [check_similarity, hany, hb]
  have hbmem : b ∈ allSimilarities sims :=
    hperm.mem_iff.mp (by rw [hb]; exact List.mem_cons_self b rest)
  have hbtop : ∀ a ∈ allSimilarities sims, a.max_similarity ≤ b.max_similarity := by
    intro a ha
    have hmem : a ∈ b :: rest := by rw [← hb]; exact hperm.mem_iff.mpr ha
    rcases List.mem_cons.mp hmem with h | h
    · rw [h]
    · exact (List.sorted_cons.mp (hb ▸ hsorted)).1 a h
  have hbmax : b.max_similarity = maxList (sims.map (fun p => maxList p.2)) := by
    have h1 : b.max_similarity ∈ sims.map (fun p => maxList p.2) := by
      obtain ⟨p, hp, hpe⟩ := List.mem_map.mp hbmem
      exact List.mem_map.mpr ⟨p, hp, by rw [← hpe]⟩
    have h2 : sims.map (fun p => maxList p.2) ≠ [] := by
      intro h
      exact hne (List.map_eq_nil_iff.mp h)
    obtain ⟨p, hp, hpe⟩ := List.mem_map.mp (maxList_mem h2)
    have hm : (⟨p.1, maxList p.2, meanList p.2⟩ : IntentMatch) ∈ allSimilarities sims :=
      List.mem_map.mpr ⟨p, hp, rfl⟩
    exact le_antisymm (le_maxList h1) (by rw [← hpe]; exact hbtop _ hm)
  refine ⟨?_, ?_, ?_, ?_, ?_, rfl⟩
  · rw [hvalid, decide_eq_true_iff, hbmax]
  · rw [hbm, List.length_take]
    exact min_le_left _ _
  · rw [hbm]
    exact List.Pairwise.sublist (List.take_sublist 5 _) hsorted
  · rw [hbm]
    intro m hm
    exact hperm.mem_iff.mp (List.take_subset 5 _ hm)
  · rw [hbm]
    intro m hm a ha hna
    have hasort : a ∈ List.insertionSort simOrder (allSimilarities sims) :=
      hperm.mem_iff.mpr ha
    rw [← List.take_append_drop 5 (List.insertionSort simOrder (allSimilarities sims))]
      at hasort
    rcases List.mem_append.mp hasort with h | h
    · exact absurd h hna
    · have hpw := hsorted
      rw [← List.take_append_drop 5 (List.insertionSort simOrder (allSimilarities sims))]
        at hpw
      exact (List.pairwise_append.mp hpw).2.2 m hm a h

/-- Witness for `check_similarity_spec`: a one-intent index whose best
similarity `0.7` passes the `0.6` threshold. -/
theorem check_similarity_spec_witness :
    (check_similarity 0.6 (some [("jadwal_dokter", [0.7])])).is_valid = true := by
  refine ((check_similarity_spec 0.6 [("jadwal_dokter", [0.7])] (by simp)
    (by simp)).1).mpr ?_
  norm_num [maxList]

/-- Bridge between the source's `int(last_week + days/7)` (float
truncation) and the claim's `last_week + floor(days/7)`: they agree
whenever the recorded week and the elapsed days are non-negative
(`ℤ` division is floor division on non-negative operands). -/
theorem pyInt_add_div_seven (a d : ℤ) (ha : 0 ≤ a) (hd : 0 ≤ d) :
    pyInt ((a : ℚ) + (d : ℚ) / 7) = a + d / 7 := by
  have ha' : (0 : ℚ) ≤ (a : ℚ) := by exact_mod_cast ha
  have hd' : (0 : ℚ) ≤ (d : ℚ) := by exact_mod_cast hd
  have hq : (0 : ℚ) ≤ (a : ℚ) + (d : ℚ) / 7 :=
    add_nonneg ha' (div_nonneg hd' (by norm_num))
  rw [pyInt, if_pos hq]
  have h7 : ((d : ℚ) / 7) = ((d : ℚ) / ((7 : ℕ) : ℚ)) := by norm_num
  rw [h7, Int.floor_int_add, Rat.floor_intCast_div_natCast d 7]
  norm_num

/-- Claim-side statement (C2 wording) of the target-week rule:
`current_week ≤ 12` targets week 13; weeks 13-28 target
`last_week + 4` unless the gap reached 4 (then overdue at
`current_week`); weeks 29-36 the same with cadence 2; above 36 with
cadence 1. -/
def spec_target_week (current_week last_week : ℤ) : ℤ :=
  if current_week ≤ 12 then 13
  else if current_week ≤ 28 then
    if current_week - last_week ≥ 4 then current_week else last_week + 4
  else if current_week ≤ 36 then
    if current_week - last_week ≥ 2 then current_week else last_week + 2
  else
    if current_week - last_week ≥ 1 then current_week else last_week + 1

/-- Claim-side statement (C2 wording) of the next-visit-date rule:
tomorrow when the target is not in the future, else today plus
`(target - current) * 7` days (exact integer arithmetic in the
source). -/
def spec_next_visit_date (today current_week target_week : ℤ) : ℤ :=
  if target_week ≤ current_week then today + 1
  else today + (target_week - current_week) * 7

/-- The interval label chosen by the source alongside the target week
(used to instantiate the existential in `anc_schedule_rules`). -/
def anc_interval_name (current_week last_week : ℤ) : String :=
  if current_week ≤ 12 then "memasuki trimester 2"
  else if current_week ≤ 28 then
    if current_week - last_week ≥ 4 then "kontrol trimester 2 (terlambat)"
    else "kontrol trimester 2"
  else if current_week ≤ 36 then
    if current_week - last_week ≥ 2 then "kontrol trimester 3 (terlambat)"
    else "kontrol trimester 3"
  else
    if current_week - last_week ≥ 1 then "kontrol menjelang persalinan (terlambat)"
    else "kontrol menjelang persalinan"

/-- C2: for an active undelivered pregnancy whose latest ANC visit has
a parseable date not after today and a positive recorded gestational
week, the computed plan has `current_week = last_week +
(days since the visit) / 7` (floor division), the target week of
`spec_target_week`, the next visit date of `spec_next_visit_date`
(tomorrow exactly when the target is not in the future), and the
overdue flag `target ≤ current`. -/
theorem anc_schedule_rules (parse_date : String → Option ℤ) (today visit_date : ℤ)
    (p : Pregnancy) (ps : List Pregnancy) (v : AncVisit) (vs : List AncVisit)
    (deliveries : List Delivery)
    (hdel : ∀ d ∈ deliveries, d.id_kehamilan ≠ p.id_kehamilan)
    (hstatus : lowerStr p.status_kehamilan ∈ active_statuses)
    (hdate : v.tanggal_kunjungan ≠ "")
    (hparse : parse_date v.tanggal_kunjungan = some visit_date)
    (hweek : 1 ≤ v.usia_kehamilan)
    (helapsed : visit_date ≤ today) :
    ∃ interval_name,
      calculate_anc_reminder parse_date today (p :: ps) (v :: vs) deliveries =
        .schedule (v.usia_kehamilan + (today - visit_date) / 7)
          (spec_target_week (v.usia_kehamilan + (today - visit_date) / 7) v.usia_kehamilan)
          (spec_next_visit_date today (v.usia_kehamilan + (today - visit_date) / 7)
            (spec_target_week (v.usia_kehamilan + (today - visit_date) / 7) v.usia_kehamilan))
          (decide (spec_target_week (v.usia_kehamilan + (today - visit_date) / 7)
              v.usia_kehamilan ≤ v.usia_kehamilan + (today - visit_date) / 7))
          interval_name := by
  have hfind : deliveries.find? (fun d => d.id_kehamilan == p.id_kehamilan) = none := by
    rw [List.find?_eq_none]
    intro d hd
    simpa using hdel d hd
  have hne0 : ¬(v.tanggal_kunjungan = "" ∨ v.usia_kehamilan = 0) := by
    push_neg
    exact ⟨hdate, by omega⟩
  have hpy : pyInt ((v.usia_kehamilan : ℚ) + ((today - visit_date : ℤ) : ℚ) / 7) =
      v.usia_kehamilan + (today - visit_date) / 7 :=
    pyInt_add_div_seven v.usia_kehamilan (today - visit_date) (by omega) (by omega)
  refine ⟨anc_interval_name (v.usia_kehamilan + (today - visit_date) / 7)
    v.usia_kehamilan, ?_⟩
  simp only [calculate_anc_reminder, hfind]
  rw [if_neg (not_not_intro hstatus), if_neg hne0]
  simp only [hparse, hpy]
  simp only [spec_target_week, spec_next_visit_date, anc_interval_name]
  by_cases htc : (if v.usia_kehamilan + (today - visit_date) / 7 ≤ 12 then 13
      else if v.usia_kehamilan + (today - visit_date) / 7 ≤ 28 then
        if (v.usia_kehamilan + (today - visit_date) / 7) - v.usia_kehamilan ≥ 4 then
          v.usia_kehamilan + (today - visit_date) / 7
        else v.usia_kehamilan + 4
      else if v.usia_kehamilan + (today - visit_date) / 7 ≤ 36 then
        if (v.usia_kehamilan + (today - visit_date) / 7) - v.usia_kehamilan ≥ 2 then
          v.usia_kehamilan + (today - visit_date) / 7
        else v.usia_kehamilan + 2
      else
        if (v.usia_kehamilan + (today - visit_date) / 7) - v.usia_kehamilan ≥ 1 then
          v.usia_kehamilan + (today - visit_date) / 7
        else v.usia_kehamilan + 1 : ℤ) ≤ v.usia_kehamilan + (today - visit_date) / 7
  · rw [if_pos htc, if_pos htc, decide_eq_true htc]
  · rw [if_neg htc, if_neg htc, decide_eq_false htc]

/-- Witness for `anc_schedule_rules`: visit at week 20 recorded 3 weeks
(21 days) ago, active pregnancy, no delivery: current week 23, target
24, not overdue, next visit one week from today (day 21 + 7 = 28). -/
theorem anc_schedule_rules_witness :
    ∃ interval_name,
      calculate_anc_reminder (fun s => if s = "2024-01-10" then some 0 else none) 21
        [⟨"K9", "Berjalan", ""⟩] [⟨"2024-01-10", 20⟩] [] =
        .schedule 23 24 28 false interval_name := by
  have h := anc_schedule_rules (fun s => if s = "2024-01-10" then some 0 else none) 21 0
    ⟨"K9", "Berjalan", ""⟩ [] ⟨"2024-01-10", 20⟩ [] []
    (by simp) (by decide) (by decide) (by decide) (by decide) (by decide)
  norm_num [spec_target_week, spec_next_visit_date] at h
  exact h
